import Mathlib

/-!
Verification development for the `transformer_3d` repository: a shallow
embedding of its layout generator (`src/components/TransformerScene.tsx`),
its Gemini service client (`services/geminiService.ts`), and the info-panel
selection/chat state machine (`src/components/InfoPanel.tsx` together with
the `App` component), followed by theorems settling the spec's claims.

Numeric coordinates are modelled over `ℚ`; the source performs only
additions of small decimal constants, which the rational model captures
structurally.
-/

namespace Transformer3D

/-! ## Data model (`types.ts`) -/

/-- `TransformerBlockData.type` in `types.ts`:
`'input' | 'layer' | 'mechanism' | 'output'`. -/
inductive BlockCategory
  | input
  | layer
  | mechanism
  | output
  deriving DecidableEq, Repr, Inhabited

/-- `TransformerBlockData` from `types.ts`. `position` and `dimensions` are
3-component vectors `(x, y, z)` resp. `(width, height, depth)`. -/
structure TransformerBlockData where
  id : String
  label : String
  type : BlockCategory
  description : Option String
  position : ℚ × ℚ × ℚ
  color : String
  dimensions : ℚ × ℚ × ℚ
  deriving DecidableEq, Repr, Inhabited

/-- `ChatMessage.role` from `types.ts`: `'user' | 'model'`. -/
inductive Role
  | user
  | model
  deriving DecidableEq, Repr, Inhabited

/-- `ChatMessage` from `types.ts`; `isStreaming?: boolean` is optional, so it
is modelled as `Option Bool` (`none` when the field is absent). -/
structure ChatMessage where
  role : Role
  text : String
  isStreaming : Option Bool
  deriving DecidableEq, Repr, Inhabited

/-! ## Layout generator (`src/components/TransformerScene.tsx`) -/

def BLOCK_WIDTH : ℚ := 3.0
def STD_BLOCK_HEIGHT : ℚ := 0.8
def BLOCK_DEPTH : ℚ := 3.0
def GAP : ℚ := 0.3

/-- The `type` argument of `createStack`: `'Encoder' | 'Decoder'`. -/
inductive StackKind
  | Encoder
  | Decoder
  deriving DecidableEq, Repr

/-- The string used in the template literal `` `${type}-${id}` ``. -/
def StackKind.name : StackKind → String
  | .Encoder => "Encoder"
  | .Decoder => "Decoder"

/-- The mutable locals of `createStack`: the `blocks` array and the running
vertical cursor `currentY`. -/
structure BuildState where
  blocks : List TransformerBlockData
  currentY : ℚ
  deriving DecidableEq, Repr

/-- The inner `addBlock` helper of `createStack`: pushes a block anchored at
the current cursor, then advances the cursor by `height + GAP`. -/
def addBlock (offsetX : ℚ) (kind : StackKind) (st : BuildState)
    (id label color : String) (height : ℚ) : BuildState :=
  { blocks := st.blocks ++ [{
      id := kind.name ++ "-" ++ id
      label := label
      type := .mechanism
      description := none
      position := (offsetX, st.currentY, 0)
      color := color
      dimensions := (BLOCK_WIDTH, height, BLOCK_DEPTH) }]
    currentY := st.currentY + height + GAP }

/-- `createStack(offsetX, type)`: builds one tower bottom-to-top starting the
cursor at `-4.5`, with the two `currentY += GAP * 1.5` spacer bumps. -/
def createStack (offsetX : ℚ) (kind : StackKind) : List TransformerBlockData :=
  let st0 : BuildState := { blocks := [], currentY := -4.5 }
  let st1 := addBlock offsetX kind st0 "inputs"
      (if kind = .Encoder then "输入 (Inputs)" else "输出 (Shifted)") "#475569" STD_BLOCK_HEIGHT
  let st2 := addBlock offsetX kind st1 "embedding" "嵌入层 (Embedding)" "#ec4899" STD_BLOCK_HEIGHT
  let st3 := addBlock offsetX kind st2 "pos-enc" "位置编码" "#a855f7" STD_BLOCK_HEIGHT
  let st4 : BuildState := { st3 with currentY := st3.currentY + GAP * 1.5 }
  let st5 := if kind = .Decoder then
      let a := addBlock offsetX kind st4 "masked-attn" "掩码多头注意力" "#f97316" STD_BLOCK_HEIGHT
      addBlock offsetX kind a "add-norm-1" "残差 & 归一化" "#eab308" 0.5
    else st4
  let attnLabel := if kind = .Encoder then "多头注意力" else "交叉注意力"
  let st6 := addBlock offsetX kind st5 "attention" attnLabel "#f97316" STD_BLOCK_HEIGHT
  let st7 := addBlock offsetX kind st6 "add-norm-2" "残差 & 归一化" "#eab308" 0.5
  let st8 := addBlock offsetX kind st7 "ffn" "前馈神经网络" "#3b82f6" STD_BLOCK_HEIGHT
  let st9 := addBlock offsetX kind st8 "add-norm-3" "残差 & 归一化" "#eab308" 0.5
  let st10 := if kind = .Decoder then
      let a : BuildState := { st9 with currentY := st9.currentY + GAP * 1.5 }
      let b := addBlock offsetX kind a "linear" "线性层 (Linear)" "#6366f1" STD_BLOCK_HEIGHT
      let c := addBlock offsetX kind b "softmax" "Softmax" "#10b981" STD_BLOCK_HEIGHT
      addBlock offsetX kind c "probs" "输出概率" "#475569" STD_BLOCK_HEIGHT
    else st9
  st10.blocks

/-- `const ENCODER_BLOCKS = createStack(-2.5, 'Encoder')`. -/
def ENCODER_BLOCKS : List TransformerBlockData := createStack (-2.5) .Encoder

/-- `const DECODER_BLOCKS = createStack(2.5, 'Decoder')`. -/
def DECODER_BLOCKS : List TransformerBlockData := createStack 2.5 .Decoder

/-- `const ALL_BLOCKS = [...ENCODER_BLOCKS, ...DECODER_BLOCKS]`. -/
def ALL_BLOCKS : List TransformerBlockData := ENCODER_BLOCKS ++ DECODER_BLOCKS

/-- Checks that a block list follows the running-cursor discipline from
`base`: each block's anchor y-coordinate is the cursor value at its insertion
(either exactly the cursor, or the cursor after one extra `GAP * 1.5` spacer
bump), after which the cursor advances by that block's height plus `GAP`. -/
def cursorChain (base : ℚ) : List TransformerBlockData → Bool
  | [] => true
  | b :: rest =>
    (b.position.2.1 == base || b.position.2.1 == base + GAP * 1.5) &&
      cursorChain (b.position.2.1 + b.dimensions.2.1 + GAP) rest

/-! ## Explanation client (`services/geminiService.ts`, `getComponentExplanation`) -/

/-- Outcome of one `ai.models.generateContent` call, as observed by
`getComponentExplanation`: either the promise resolves and `response.text`
holds the given string (`""` also models an absent/undefined `text`, since
`response.text || ...` treats both as falsy), or the call throws
(network error, auth error, malformed response). -/
inductive ExplainOutcome
  | ok : String → ExplainOutcome
  | err : ExplainOutcome
  deriving DecidableEq, Repr

/-- The string returned when the request resolves but `response.text` is
falsy: `response.text || "暂无解释。"`. -/
def noExplanationText : String := "暂无解释。"

/-- The string returned by the `catch` branch of `getComponentExplanation`. -/
def explanationFallback : String := "无法加载解释。请检查您的 API 密钥。"

/-- The template-literal prompt of `getComponentExplanation`, with
`${componentLabel}` interpolated. -/
def explanationPrompt (componentLabel : String) : String :=
  "\n    请用中文为初学者解释 Transformer 架构（深度学习）中的 \"" ++ componentLabel ++
  "\" 组件。\n    \n    请按以下结构回答：\n    1. 一个简单的比喻（1-2句话）。\n" ++
  "    2. 技术功能（输入是什么，数学操作大概是什么，输出是什么）。\n" ++
  "    3. 为什么它对模型至关重要。\n    \n    保持简洁（最多 200 字）。使用 Markdown 格式。\n  "

/-- `getComponentExplanation(componentLabel)`, parameterised by the service's
behaviour `svc` (the outcome of the single `generateContent` request built
from the prompt). On resolution with truthy `text` the text is returned
verbatim; on falsy `text` the `noExplanationText` string; on a thrown error
the `catch` branch returns `explanationFallback`. The function is total:
no failure is re-raised. -/
def getComponentExplanation (svc : String → ExplainOutcome) (componentLabel : String) : String :=
  match svc (explanationPrompt componentLabel) with
  | .ok t => if t = "" then noExplanationText else t
  | .err => explanationFallback

/-! ## Chat client (`services/geminiService.ts`, `sendChatMessage`) -/

/-- The fixed localized error notice delivered through `onChunk` by the
`catch` branch of `sendChatMessage`. -/
def chatErrorNotice : String := "\n\n(错误：无法处理消息。请重试。)"

/-- Behaviour of one `sendMessageStream` call: the chunk texts the stream
yields (in order), and whether the stream then errors instead of completing
normally. -/
structure ChatStreamBehavior where
  chunks : List String
  fails : Bool
  deriving DecidableEq, Repr

/-- The sequence of strings `sendChatMessage` passes to `onChunk`: each
yielded chunk whose `text` is truthy (`if (c.text)` skips empty chunks), and
— when the stream errors — the fixed `chatErrorNotice` delivered by the
`catch` handler. Mid-stream failure is swallowed: the promise still
resolves, which the model reflects by totality. -/
def sendChatMessageChunks (svc : ChatStreamBehavior) : List String :=
  svc.chunks.filter (fun c => !(c == "")) ++ (if svc.fails then [chatErrorNotice] else [])

/-- Concatenation `c1 ++ ... ++ cn` of a chunk sequence. -/
def concatChunks (cs : List String) : String :=
  cs.foldr (fun a b => a ++ b) ""

/-! ## Info panel (`src/components/InfoPanel.tsx`) -/

/-- JavaScript `String.prototype.trim` whitespace: WhiteSpace (tab, VT, FF,
space, NBSP, ZWNBSP, Unicode space separators) and LineTerminator (LF, CR,
LS, PS) code points. -/
def isJsWhitespace (c : Char) : Bool :=
  c = ' ' || c = '\t' || c = '\n' || c = '\r' || c = '\x0b' || c = '\x0c' ||
  c = ' ' || c = ' ' || c = ' ' || c = ' ' || c = ' ' ||
  c = ' ' || c = ' ' || c = ' ' || c = ' ' || c = ' ' ||
  c = ' ' || c = ' ' || c = ' ' || c = ' ' || c = ' ' ||
  c = ' ' || c = ' ' || c = '　' || c = '﻿'

/-- JavaScript `String.prototype.trim`: strips leading and trailing
whitespace. -/
def jsTrim (s : String) : String :=
  String.mk (((s.toList.dropWhile isJsWhitespace).reverse.dropWhile isJsWhitespace).reverse)

/-- The `useState` cells of `InfoPanel`. -/
structure PanelState where
  explanation : String
  loading : Bool
  chatInput : String
  messages : List ChatMessage
  isChatting : Bool
  deriving DecidableEq, Repr

/-- Initial `InfoPanel` state: `useState("")`, `useState(false)`,
`useState("")`, `useState([])`, `useState(false)`. -/
def initialPanelState : PanelState :=
  { explanation := "", loading := false, chatInput := "", messages := [], isChatting := false }

/-- The `setMessages` updater run on each chunk: copy the array and, when the
last entry has `role === 'model'`, overwrite its `text` with the cumulative
accumulator (all other fields, `isStreaming` included, are untouched). The
empty-list case cannot arise inside `handleChatSubmit` (a model placeholder
was just appended; in JS an empty array would throw on `last.role`). -/
def setLastModelText (msgs : List ChatMessage) (t : String) : List ChatMessage :=
  match msgs.getLast? with
  | some last => if last.role = .model then msgs.dropLast ++ [{ last with text := t }] else msgs
  | none => msgs

/-- The chunk loop of `handleChatSubmit`: `fullResponse += chunk` followed by
the `setMessages` replacement, applied to each delivered chunk in arrival
order; `acc` is the running `fullResponse`. -/
def streamFoldAux (msgs : List ChatMessage) (acc : String) : List String → List ChatMessage
  | [] => msgs
  | c :: rest => streamFoldAux (setLastModelText msgs (acc ++ c)) (acc ++ c) rest

/-- The text reached by the accumulator recurrence of the chunk loop:
starting from message text `t` and accumulator `acc`, each chunk `c`
replaces both with `acc ++ c`. -/
def finalText (t acc : String) : List String → String
  | [] => t
  | c :: rest => finalText (acc ++ c) (acc ++ c) rest

/-- The early-return guard of `handleChatSubmit`:
`if (!chatInput.trim() || isChatting) return`. -/
def submitGuard (s : PanelState) : Bool :=
  jsTrim s.chatInput == "" || s.isChatting

/-- The synchronous part of `handleChatSubmit` before the streaming request
is issued: append the user's message (role `user`, text the current input,
no `isStreaming` field), clear the input, set `isChatting`, and append the
model placeholder (`role: 'model', text: "", isStreaming: true`). -/
def submitPhase1 (s : PanelState) : PanelState :=
  { s with
    chatInput := ""
    isChatting := true
    messages := s.messages ++
      [{ role := .user, text := s.chatInput, isStreaming := none },
       { role := .model, text := "", isStreaming := some true }] }

/-- `handleChatSubmit` run to completion against a stream behaving as `svc`.
Returns the final panel state and whether a request was issued to the
service. After the stream ends (success or swallowed failure) only
`setIsChatting(false)` runs — the placeholder's `isStreaming` field is never
written again. -/
def handleChatSubmit (s : PanelState) (svc : ChatStreamBehavior) : PanelState × Bool :=
  if submitGuard s then (s, false)
  else
    let s1 := submitPhase1 s
    ({ s1 with
        messages := streamFoldAux s1.messages "" (sendChatMessageChunks svc)
        isChatting := false },
      true)

/-! ## App composition (`App` in `index.tsx` + `InfoPanel` effects) -/

/-- `App` state plus the persistent `InfoPanel` state. `InfoPanel` is
rendered unconditionally (with a `null` block it shows the intro panel), is
never remounted with a changed `key`, so its hook state survives every
`selectedBlock` change. -/
structure AppState where
  selected : Option TransformerBlockData
  panel : PanelState
  deriving DecidableEq, Repr

/-- Initial app state: `useState(null)` plus the initial panel state. -/
def initialAppState : AppState :=
  { selected := none, panel := initialPanelState }

/-- `handleBlockSelect(block)` plus the synchronous part of `InfoPanel`'s
`[selectedBlock]` effect: `setLoading(true)` and the explanation fetch is
started. No other panel state is written — in particular `messages` and
`explanation` are not reset. -/
def appSelect (st : AppState) (b : TransformerBlockData) : AppState :=
  { selected := some b, panel := { st.panel with loading := true } }

/-- The resolution of the explanation fetch: `setExplanation(text)` then the
`finally` block's `setLoading(false)`. -/
def appExplanationArrives (st : AppState) (text : String) : AppState :=
  { st with panel := { st.panel with explanation := text, loading := false } }

/-- `onClose`: `setSelectedBlock(null)`. The `[selectedBlock]` effect does
nothing for a `null` block, and `InfoPanel` keeps its hook state. -/
def appClose (st : AppState) : AppState :=
  { st with selected := none }

/-- Typing into the chat input: `setChatInput(value)`. -/
def appSetChatInput (st : AppState) (value : String) : AppState :=
  { st with panel := { st.panel with chatInput := value } }

/-- A chat submission routed through the panel. -/
def appChatSubmit (st : AppState) (svc : ChatStreamBehavior) : AppState × Bool :=
  let r := handleChatSubmit st.panel svc
  ({ st with panel := r.1 }, r.2)

/-! ## Supporting lemmas -/

lemma concatChunks_cons (c : String) (cs : List String) :
    concatChunks (c :: cs) = c ++ concatChunks cs := rfl

lemma concatChunks_append (l1 l2 : List String) :
    concatChunks (l1 ++ l2) = concatChunks l1 ++ concatChunks l2 := by
  induction l1 with
  | nil => simp [concatChunks]
  | cons c rest ih => simp [concatChunks_cons, ih, String.append_assoc]

lemma concatChunks_filter_nonempty (cs : List String) :
    concatChunks (cs.filter fun c => !(c == "")) = concatChunks cs := by
  induction cs with
  | nil => rfl
  | cons c rest ih =>
    by_cases hc : c = ""
    · subst hc
      simpa [List.filter_cons, concatChunks_cons] using ih
    · have hb : (!(c == "")) = true := by simp [hc]
      simp [List.filter_cons, hb, concatChunks_cons, ih]

lemma finalText_eq (cs : List String) (t acc : String) :
    finalText t acc cs = if cs.isEmpty then t else acc ++ concatChunks cs := by
  induction cs generalizing t acc with
  | nil => simp [finalText]
  | cons c rest ih =>
    simp only [finalText, ih, List.isEmpty_cons, concatChunks_cons]
    cases rest with
    | nil => simp [concatChunks]
    | cons d ds => simp [String.append_assoc]

lemma finalText_empty (cs : List String) :
    finalText "" "" cs = concatChunks cs := by
  rw [finalText_eq]
  cases cs with
  | nil => rfl
  | cons c rest => simp

lemma setLastModelText_concat (pre : List ChatMessage) (m : ChatMessage)
    (hm : m.role = .model) (t : String) :
    setLastModelText (pre ++ [m]) t = pre ++ [{ m with text := t }] := by
  simp [setLastModelText, List.getLast?_concat, List.dropLast_concat, hm]

lemma streamFoldAux_concat (cs : List String) (pre : List ChatMessage)
    (m : ChatMessage) (hm : m.role = .model) (acc : String) :
    streamFoldAux (pre ++ [m]) acc cs
      = pre ++ [{ m with text := finalText m.text acc cs }] := by
  induction cs generalizing m acc with
  | nil => simp [streamFoldAux, finalText]
  | cons c rest ih =>
    simp only [streamFoldAux, setLastModelText_concat pre m hm]
    exact ih { m with text := acc ++ c } hm (acc ++ c)

lemma submitGuard_false (s : PanelState)
    (h1 : jsTrim s.chatInput ≠ "") (h2 : s.isChatting = false) :
    submitGuard s = false := by
  simp [submitGuard, h1, h2]

lemma handleChatSubmit_messages (s : PanelState) (svc : ChatStreamBehavior)
    (h1 : jsTrim s.chatInput ≠ "") (h2 : s.isChatting = false) :
    ((handleChatSubmit s svc).1.messages).getLast?
      = some { role := .model,
               text := concatChunks (sendChatMessageChunks svc),
               isStreaming := some true } ∧
    (handleChatSubmit s svc).1.isChatting = false ∧
    (handleChatSubmit s svc).2 = true := by
  have hg : submitGuard s = false := submitGuard_false s h1 h2
  have hmsgs : (submitPhase1 s).messages
      = (s.messages ++ [{ role := .user, text := s.chatInput, isStreaming := none }])
        ++ [{ role := .model, text := "", isStreaming := some true }] := by
    simp [submitPhase1]
  refine ⟨?_, ?_, ?_⟩
  · simp only [handleChatSubmit, hg, Bool.false_eq_true, if_false]
    rw [hmsgs, streamFoldAux_concat _ _ _ rfl, finalText_empty, List.getLast?_concat]
  · simp [handleChatSubmit, hg]
  · simp [handleChatSubmit, hg]

/-! ## Claim theorems -/

/-- C1 (counterexample): after `select(A)`, a chat send, then `select(B)`
(with the first encoder and decoder blocks as A and B), the transcript
visible for B is not empty — it still holds both messages of A's session.
The claim that changing the Selection resets the transcript is false on the
code: `InfoPanel` never clears `messages` on a `selectedBlock` change. -/
theorem transcript_survives_selection_change_counterexample :
    (appSelect
        ((appChatSubmit
            (appSetChatInput
              (appExplanationArrives
                (appSelect initialAppState (ENCODER_BLOCKS.getD 0 default)) "expA")
              "你好")
            { chunks := ["好的"], fails := false }).1)
        (DECODER_BLOCKS.getD 0 default)).panel.messages
      = [{ role := .user, text := "你好", isStreaming := none },
         { role := .model, text := "好的", isStreaming := some true }] ∧
    (appSelect
        ((appChatSubmit
            (appSetChatInput
              (appExplanationArrives
                (appSelect initialAppState (ENCODER_BLOCKS.getD 0 default)) "expA")
              "你好")
            { chunks := ["好的"], fails := false }).1)
        (DECODER_BLOCKS.getD 0 default)).panel.messages
      ≠ [] := by
  constructor <;> decide

/-- C1 (amended): changing the Selection (to a block or to none) re-triggers
only the explanation fetch; it discards neither the prior Explanation text
nor the chat transcript — `messages` and `explanation` survive `appSelect`,
`appClose` and the arrival of a new explanation unchanged. -/
theorem selection_change_preserves_transcript
    (st : AppState) (b : TransformerBlockData) (t : String) :
    (appSelect st b).panel.messages = st.panel.messages ∧
    (appSelect st b).panel.explanation = st.panel.explanation ∧
    (appClose st).panel.messages = st.panel.messages ∧
    (appClose st).panel.explanation = st.panel.explanation ∧
    (appExplanationArrives st t).panel.messages = st.panel.messages := by
  exact ⟨rfl, rfl, rfl, rfl, rfl⟩

/-- C2 (counterexample): for the chunk sequence `["Hel","lo"," world"]` the
trailing model message ends with text exactly `"Hello world"` but with
`isStreaming` still `true` — the claim's `streaming=false` is false on the
code, which clears only the panel-level `isChatting` flag and never writes
the placeholder's `isStreaming` field again. -/
theorem chat_stream_success_counterexample :
    ((handleChatSubmit { initialPanelState with chatInput := "什么是注意力" }
        { chunks := ["Hel", "lo", " world"], fails := false }).1.messages).getLast?
      = some { role := .model, text := "Hello world", isStreaming := some true } ∧
    ((handleChatSubmit { initialPanelState with chatInput := "什么是注意力" }
        { chunks := ["Hel", "lo", " world"], fails := false }).1.messages).getLast?
      ≠ some { role := .model, text := "Hello world", isStreaming := some false } := by
  constructor <;> decide

/-- C2 (amended): for every send accepted by the guard whose stream
completes successfully after delivering chunks `c1..cn`, the transcript's
trailing model message's text equals `c1 ++ ... ++ cn` (each chunk extends
the running accumulator, which replaces the message text), its `isStreaming`
flag remains `true` (the code never clears it), and the panel-level
`isChatting` flag is `false` after completion. -/
theorem chat_stream_success_final_state (s : PanelState) (cs : List String)
    (h1 : jsTrim s.chatInput ≠ "") (h2 : s.isChatting = false) :
    ((handleChatSubmit s { chunks := cs, fails := false }).1.messages).getLast?
      = some { role := .model, text := concatChunks cs, isStreaming := some true } ∧
    (handleChatSubmit s { chunks := cs, fails := false }).1.isChatting = false := by
  obtain ⟨hmsg, hchat, -⟩ := handleChatSubmit_messages s { chunks := cs, fails := false } h1 h2
  refine ⟨?_, hchat⟩
  rw [hmsg]
  simp [sendChatMessageChunks, concatChunks_filter_nonempty]

/-- C2 (witness): the amended success theorem at the concrete panel with
input `"hi"` and the chunk sequence `["Hel","lo"," world"]`. -/
theorem chat_stream_success_final_state_witness :
    ((handleChatSubmit { initialPanelState with chatInput := "hi" }
        { chunks := ["Hel", "lo", " world"], fails := false }).1.messages).getLast?
      = some { role := .model, text := concatChunks ["Hel", "lo", " world"],
               isStreaming := some true } ∧
    (handleChatSubmit { initialPanelState with chatInput := "hi" }
        { chunks := ["Hel", "lo", " world"], fails := false }).1.isChatting = false :=
  chat_stream_success_final_state { initialPanelState with chatInput := "hi" }
    ["Hel", "lo", " world"] (by decide) rfl

/-- C3 (counterexample): for a stream that fails after delivering `"部分"`,
the trailing model message preserves the partial text with the localized
error notice appended, but its `isStreaming` flag is still `true` — the
claim's "streaming flag is cleared" is false on the code. -/
theorem chat_stream_failure_counterexample :
    ((handleChatSubmit { initialPanelState with chatInput := "q" }
        { chunks := ["部分"], fails := true }).1.messages).getLast?
      = some { role := .model, text := "部分" ++ chatErrorNotice, isStreaming := some true } ∧
    ((handleChatSubmit { initialPanelState with chatInput := "q" }
        { chunks := ["部分"], fails := true }).1.messages).getLast?
      ≠ some { role := .model, text := "部分" ++ chatErrorNotice, isStreaming := some false } := by
  constructor <;> decide

/-- C3 (amended): for every send accepted by the guard whose stream fails
after accumulating chunks `c1..cn` (text `t = c1 ++ ... ++ cn`), the
trailing model message's text becomes `t` followed by the fixed localized
error notice — the partial answer is preserved; the send never raises (the
embedding is a total function, mirroring the swallowing `catch`); the
message's `isStreaming` flag remains `true` (never cleared), while the
panel-level `isChatting` flag is set `false`. -/
theorem chat_stream_failure_final_state (s : PanelState) (cs : List String)
    (h1 : jsTrim s.chatInput ≠ "") (h2 : s.isChatting = false) :
    ((handleChatSubmit s { chunks := cs, fails := true }).1.messages).getLast?
      = some { role := .model, text := concatChunks cs ++ chatErrorNotice,
               isStreaming := some true } ∧
    (handleChatSubmit s { chunks := cs, fails := true }).1.isChatting = false := by
  obtain ⟨hmsg, hchat, -⟩ := handleChatSubmit_messages s { chunks := cs, fails := true } h1 h2
  refine ⟨?_, hchat⟩
  rw [hmsg]
  have h3 : sendChatMessageChunks { chunks := cs, fails := true }
      = (cs.filter fun c => !(c == "")) ++ [chatErrorNotice] := by
    simp [sendChatMessageChunks]
  rw [h3, concatChunks_append, concatChunks_filter_nonempty, concatChunks_cons]
  simp [concatChunks]

/-- C3 (witness): the amended failure theorem at the concrete panel with
input `"q"` and a stream failing after the single chunk `"部分"`. -/
theorem chat_stream_failure_final_state_witness :
    ((handleChatSubmit { initialPanelState with chatInput := "q" }
        { chunks := ["部分"], fails := true }).1.messages).getLast?
      = some { role := .model, text := concatChunks ["部分"] ++ chatErrorNotice,
               isStreaming := some true } ∧
    (handleChatSubmit { initialPanelState with chatInput := "q" }
        { chunks := ["部分"], fails := true }).1.isChatting = false :=
  chat_stream_failure_final_state { initialPanelState with chatInput := "q" }
    ["部分"] (by decide) rfl

/-- C4 (counterexample): two of the claim's "failing service behaviours"
resolve to different fixed strings — a thrown error yields
`explanationFallback` while a resolved response with empty text yields the
distinct `noExplanationText` — so `explain(label)` does not resolve to one
fixed fallback string on every failure. -/
theorem explain_two_fallbacks_counterexample :
    getComponentExplanation (fun _ => ExplainOutcome.ok "") "Softmax" = noExplanationText ∧
    getComponentExplanation (fun _ => ExplainOutcome.err) "Softmax" = explanationFallback ∧
    noExplanationText ≠ explanationFallback := by
  exact ⟨rfl, rfl, by decide⟩

/-- C4 (amended): `getComponentExplanation` never raises (it is total); on a
thrown failure (network, auth, malformed response) it resolves to the fixed
fallback string; on a resolved response with empty (falsy) text it resolves
to the distinct fixed placeholder string; on success with non-empty text it
returns the response text verbatim. -/
theorem explain_outcomes (svc : String → ExplainOutcome) (label : String) :
    (svc (explanationPrompt label) = .err →
      getComponentExplanation svc label = explanationFallback) ∧
    (svc (explanationPrompt label) = .ok "" →
      getComponentExplanation svc label = noExplanationText) ∧
    (∀ t, t ≠ "" → svc (explanationPrompt label) = .ok t →
      getComponentExplanation svc label = t) := by
  refine ⟨fun h => ?_, fun h => ?_, fun t ht h => ?_⟩
  · simp [getComponentExplanation, h]
  · simp [getComponentExplanation, h]
  · simp [getComponentExplanation, h, ht]

/-- C4 (witness): the amended theorem at a service that fails immediately on
the explanation fetch for label `"Softmax"`. -/
theorem explain_outcomes_witness :
    getComponentExplanation (fun _ => ExplainOutcome.err) "Softmax" = explanationFallback :=
  (explain_outcomes (fun _ => ExplainOutcome.err) "Softmax").1 rfl

/-- C5: all block identities across the full generated sequence are pairwise
distinct; in particular every encoder block's identity differs from every
decoder block's identity. -/
theorem block_ids_pairwise_distinct :
    (ALL_BLOCKS.map fun b => b.id).Nodup ∧
    (ENCODER_BLOCKS.all fun b => DECODER_BLOCKS.all fun b2 => !(b.id == b2.id)) = true := by
  constructor <;> decide

/-- C6: the full sequence is the encoder stack concatenated with the decoder
stack, generated at the mirrored horizontal offsets `-2.5` and `2.5` (each
block of a stack carries its stack's offset as its x-coordinate); both
stacks start their vertical cursor at the fixed base `-4.5`, the first block
sits exactly at the base, and every block's anchor y-coordinate is the
running cursor value at its insertion (allowing the fixed `GAP * 1.5` spacer
bumps), after which the cursor advances by that block's height plus `GAP`. -/
theorem layout_cursor_structure :
    ALL_BLOCKS = ENCODER_BLOCKS ++ DECODER_BLOCKS ∧
    ENCODER_BLOCKS = createStack (-2.5) .Encoder ∧
    DECODER_BLOCKS = createStack 2.5 .Decoder ∧
    ((ENCODER_BLOCKS.map fun b => b.position.2.1).head? = some (-4.5)) ∧
    ((DECODER_BLOCKS.map fun b => b.position.2.1).head? = some (-4.5)) ∧
    cursorChain (-4.5) ENCODER_BLOCKS = true ∧
    cursorChain (-4.5) DECODER_BLOCKS = true ∧
    (ENCODER_BLOCKS.all fun b => b.position.1 == -2.5) = true ∧
    (DECODER_BLOCKS.all fun b => b.position.1 == 2.5) = true := by
  refine ⟨rfl, rfl, rfl, ?_, ?_, ?_, ?_, ?_, ?_⟩ <;>
    norm_num +decide [ENCODER_BLOCKS, DECODER_BLOCKS, createStack, addBlock, cursorChain,
      GAP, STD_BLOCK_HEIGHT, BLOCK_WIDTH, BLOCK_DEPTH, StackKind.name, List.all]

/-- C7: for a send accepted by the guard (non-blank input, no send in
flight), the synchronous phase before any network activity appends the
user's message with role `user` and immediately afterwards the model
placeholder with empty text and `streaming=true`, so the transcript ends
`[..., user(msg), model("", streaming)]` before the first chunk arrives;
such a send then issues a request. -/
theorem chat_submit_prestream_transcript (s : PanelState)
    (h1 : jsTrim s.chatInput ≠ "") (h2 : s.isChatting = false) :
    (submitPhase1 s).messages
      = s.messages ++
        [{ role := .user, text := s.chatInput, isStreaming := none },
         { role := .model, text := "", isStreaming := some true }] ∧
    ∀ svc : ChatStreamBehavior, (handleChatSubmit s svc).2 = true := by
  refine ⟨rfl, fun svc => ?_⟩
  simp [handleChatSubmit, submitGuard_false s h1 h2]

/-- C7 (witness): the pre-stream transcript shape at an initial panel whose
input is `"hi"`. -/
theorem chat_submit_prestream_transcript_witness :
    (submitPhase1 { initialPanelState with chatInput := "hi" }).messages
      = initialPanelState.messages ++
        [{ role := .user, text := "hi", isStreaming := none },
         { role := .model, text := "", isStreaming := some true }] ∧
    ∀ svc : ChatStreamBehavior,
      (handleChatSubmit { initialPanelState with chatInput := "hi" } svc).2 = true :=
  chat_submit_prestream_transcript { initialPanelState with chatInput := "hi" }
    (by decide) rfl

/-- C8: submitting an empty or whitespace-only chat message (one whose
JavaScript trim is empty) is a no-op — the whole panel state, the transcript
included, is unchanged, and no request is issued to the service. -/
theorem empty_input_noop (s : PanelState) (svc : ChatStreamBehavior)
    (h : jsTrim s.chatInput = "") :
    handleChatSubmit s svc = (s, false) := by
  simp [handleChatSubmit, submitGuard, h]

/-- C8 (witness): the no-op theorem at a whitespace-only input. -/
theorem empty_input_noop_witness :
    handleChatSubmit { initialPanelState with chatInput := "  \t\n" }
      { chunks := ["x"], fails := false }
      = ({ initialPanelState with chatInput := "  \t\n" }, false) :=
  empty_input_noop { initialPanelState with chatInput := "  \t\n" }
    { chunks := ["x"], fails := false } (by decide)

/-- C9: layout generation is deterministic and pure — two invocations of
`createStack` with the same offset and kind yield identical block sequences
(same positions, sizes, colors, labels and identities in the same order);
the embedding is a pure function of its two arguments, with no randomness
and no side effects. -/
theorem createStack_deterministic (o1 o2 : ℚ) (k1 k2 : StackKind)
    (ho : o1 = o2) (hk : k1 = k2) :
    createStack o1 k1 = createStack o2 k2 := by
  subst ho
  subst hk
  rfl

/-- C9 (witness): determinism at the encoder stack's actual arguments. -/
theorem createStack_deterministic_witness :
    createStack (-2.5) .Encoder = createStack (-2.5) .Encoder :=
  createStack_deterministic (-2.5) (-2.5) .Encoder .Encoder rfl rfl

/-- C10: every block in the generated layout sequence carries category
`mechanism` — even though the `BlockCategory` data type admits the
categories `input`, `layer` and `output` as well, which are all distinct
from `mechanism`, no generated block carries any of them. -/
theorem all_blocks_category_mechanism :
    (ALL_BLOCKS.all fun b => b.type == BlockCategory.mechanism) = true ∧
    BlockCategory.input ≠ BlockCategory.mechanism ∧
    BlockCategory.layer ≠ BlockCategory.mechanism ∧
    BlockCategory.output ≠ BlockCategory.mechanism := by
  constructor <;> decide

end Transformer3D
